import Mathlib

/-!
Verification of the Mastra workflow definitions of this repository
(document-research-workflow.ts and project-onboarding-workflow.ts).

Step execute functions are shallowly embedded from the source files.
External effects (platform searches that may throw, the text-completion
call, JSON parsing of model output, clocks and random ids, publish
operations) are supplied through explicit environment records, so that
every definition stays executable. The Mastra engine itself (the driver
loop, branch evaluation, suspend/resume and bail semantics) is not part
of this repository's sources; those parts are modelled from the spec and
are marked as such in their doc comments.
-/

namespace DocResearch

/-- Search platforms of the document-research workflow input enum. -/
inductive Platform
  | googleDrive
  | github
  | slack
deriving DecidableEq

/-- Publish channels of the document-research workflow enum. -/
inductive Channel
  | slack
  | email
  | googleDrive
deriving DecidableEq

/-- String name of a publish channel, as pushed into publishedChannels. -/
def Channel.channelName : Channel → String
  | .slack => "slack"
  | .email => "email"
  | .googleDrive => "google-drive"

/-- An item returned by the Google Drive or GitHub mock search
(the source types these arrays as any; the mock items carry id, name
and a type tag, here named itemType since type is reserved). -/
structure Doc where
  id : String
  name : String
  itemType : String
deriving DecidableEq

/-- An item returned by the Slack mock search (id, text, channel). -/
structure SlackMsg where
  id : String
  text : String
  channel : String
deriving DecidableEq

/-- Faults injected into the three platform search helpers: some msg
models an exception thrown inside the helper's try block. -/
structure SearchFaults where
  googleDrive : Option String
  github : Option String
  slack : Option String
deriving DecidableEq

/-- Embeds searchGoogleDrive: the try body returns one mock document;
a thrown error is caught and converted into the empty list. -/
def searchGoogleDrive (query : String) (fault : Option String) : List Doc :=
  match fault with
  | some _ => []
  | none => [{ id := "1", name := "Document about " ++ query, itemType := "document" }]

/-- Embeds searchGitHub: the try body returns one mock repository;
a thrown error is caught and converted into the empty list. -/
def searchGitHub (query : String) (fault : Option String) : List Doc :=
  match fault with
  | some _ => []
  | none => [{ id := "1", name := "Repository related to " ++ query, itemType := "repository" }]

/-- Embeds searchSlack: the try body returns one mock message;
a thrown error is caught and converted into the empty list. -/
def searchSlack (query : String) (fault : Option String) : List SlackMsg :=
  match fault with
  | some _ => []
  | none => [{ id := "1", text := "Message about " ++ query, channel := "general" }]

/-- Workflow input after schema parsing (requireApproval has default
true applied by the schema, so it is a plain boolean here). -/
structure SearchInput where
  query : String
  platforms : Option (List Platform)
  requireApproval : Bool
  publishChannels : Option (List Channel)
deriving DecidableEq

/-- Output record of the search-documents step. -/
structure SearchOutput where
  googleDriveResults : List Doc
  githubResults : List Doc
  slackResults : List SlackMsg
  totalResults : Nat
  query : String
  requireApproval : Bool
  publishChannels : Option (List Channel)
deriving DecidableEq

/-- Default platform list used when the input omits platforms. -/
def defaultPlatforms : List Platform :=
  [Platform.googleDrive, Platform.github, Platform.slack]

/-- Embeds the execute function of the search-documents step: the
results record starts with empty lists and totalResults 0; each selected
platform's search assigns its own field; totalResults is then recomputed
as the sum of the three field lengths. -/
def searchDocumentsExecute (input : SearchInput) (f : SearchFaults) : SearchOutput :=
  let platforms := input.platforms.getD defaultPlatforms
  let r0 : SearchOutput :=
    { googleDriveResults := [], githubResults := [], slackResults := []
      totalResults := 0, query := input.query
      requireApproval := input.requireApproval
      publishChannels := input.publishChannels }
  let r1 := if platforms.contains Platform.googleDrive then
      { r0 with googleDriveResults := searchGoogleDrive input.query f.googleDrive } else r0
  let r2 := if platforms.contains Platform.github then
      { r1 with githubResults := searchGitHub input.query f.github } else r1
  let r3 := if platforms.contains Platform.slack then
      { r2 with slackResults := searchSlack input.query f.slack } else r2
  { r3 with totalResults := r3.googleDriveResults.length
      + r3.githubResults.length + r3.slackResults.length }

/-- Mutable field state of the results record while the concurrent
sub-searches settle (the three per-platform result fields). -/
structure MutResults where
  googleDriveResults : List Doc
  githubResults : List Doc
  slackResults : List SlackMsg
deriving DecidableEq

/-- Settlement of one sub-search: the continuation attached to platform
p's promise assigns that platform's result field of the shared record. -/
def applySettle (query : String) (f : SearchFaults) (r : MutResults) (p : Platform) : MutResults :=
  match p with
  | .googleDrive => { r with googleDriveResults := searchGoogleDrive query f.googleDrive }
  | .github => { r with githubResults := searchGitHub query f.github }
  | .slack => { r with slackResults := searchSlack query f.slack }

/-- The sub-searches actually launched by the step, in declaration
order: one per platform contained in the (defaulted) platforms list. -/
def launchedSearches (input : SearchInput) : List Platform :=
  defaultPlatforms.filter (fun p => (input.platforms.getD defaultPlatforms).contains p)

/-- Modelled from the spec: the Fan-Out join (section 4.4, Promise.all in
the source). The sub-searches settle in the order given by order, each
settlement assigning its own field; only after every launched sub-search
has settled is totalResults computed and the output produced. -/
def searchDocumentsSettle (input : SearchInput) (f : SearchFaults)
    (order : List Platform) : SearchOutput :=
  let r := order.foldl (applySettle input.query f)
    { googleDriveResults := [], githubResults := [], slackResults := [] }
  { googleDriveResults := r.googleDriveResults
    githubResults := r.githubResults
    slackResults := r.slackResults
    totalResults := r.googleDriveResults.length
      + r.githubResults.length + r.slackResults.length
    query := input.query
    requireApproval := input.requireApproval
    publishChannels := input.publishChannels }

/-- Analysis record with the four keys the model is asked to produce.
The source JSON.parses the model text and spreads the parsed object;
parsing is external, so the parsed result (or parse failure) is an
environment input here. -/
structure Analysis where
  summary : String
  keyFindings : List String
  recommendations : List String
  relevanceScore : Int
deriving DecidableEq

/-- Output record of the analyze-results step. -/
structure AnalyzeOutput where
  summary : String
  keyFindings : List String
  recommendations : List String
  relevanceScore : Int
  query : String
  requireApproval : Bool
  publishChannels : Option (List Channel)
deriving DecidableEq

/-- Embeds the execute function of the analyze-results step: text is
what generateText returned, parsed is the result of JSON.parse on it
(none when parsing threw). On parse failure the catch block returns the
fallback record with the raw text as summary; both branches carry the
query, requireApproval and publishChannels fields through. -/
def analyzeResultsExecute (input : SearchOutput) (text : String)
    (parsed : Option Analysis) : AnalyzeOutput :=
  match parsed with
  | some a =>
    { summary := a.summary, keyFindings := a.keyFindings
      recommendations := a.recommendations, relevanceScore := a.relevanceScore
      query := input.query, requireApproval := input.requireApproval
      publishChannels := input.publishChannels }
  | none =>
    { summary := text, keyFindings := ["Analysis completed"]
      recommendations := ["Review the findings"], relevanceScore := 75
      query := input.query, requireApproval := input.requireApproval
      publishChannels := input.publishChannels }

/-- Output record of the create-report step (reportFormat is always the
markdown member of its enum). -/
structure ReportOutput where
  reportTitle : String
  reportContent : String
  reportFormat : String
  requireApproval : Bool
  publishChannels : Option (List Channel)
deriving DecidableEq

/-- The markdown body built by the create-report step, after the
template literal's trim: now stands for new Date().toLocaleString(). -/
def reportBody (title now summary : String) (keyFindings recommendations : List String)
    (relevanceScore : Int) : String :=
  "# " ++ title
    ++ "\n\n**Generated on:** " ++ now
    ++ "\n**Relevance Score:** " ++ toString relevanceScore ++ "/100"
    ++ "\n\n## Executive Summary\n" ++ summary
    ++ "\n\n## Key Findings\n"
    ++ String.intercalate "\n" (keyFindings.map (fun finding => "- " ++ finding))
    ++ "\n\n## Recommendations\n"
    ++ String.intercalate "\n"
        ((recommendations.enum).map (fun p => toString (p.1 + 1) ++ ". " ++ p.2))
    ++ "\n\n---\n*This report was automatically generated by the Smart Document Research Workflow*"

/-- Embeds the execute function of the create-report step. -/
def createReportExecute (input : AnalyzeOutput) (now : String) : ReportOutput :=
  let reportTitle := "Research Report: " ++ input.query
  { reportTitle := reportTitle
    reportContent := reportBody reportTitle now input.summary
      input.keyFindings input.recommendations input.relevanceScore
    reportFormat := "markdown"
    requireApproval := input.requireApproval
    publishChannels := input.publishChannels }

/-- Checkpoint payload passed to suspend by the human-approval step:
exactly the report title and content (the suspendSchema's two fields). -/
structure SuspendPayload where
  reportTitle : String
  reportContent : String
deriving DecidableEq

/-- Resume data accepted by the human-approval step's resumeSchema. -/
structure ResumeData where
  approved : Bool
  feedback : Option String
  modifiedContent : Option String
deriving DecidableEq

/-- Output record of the human-approval step. -/
structure ApprovalOutput where
  approved : Bool
  feedback : Option String
  reportTitle : String
  reportContent : String
  publishChannels : Option (List Channel)
deriving DecidableEq

/-- Outcome of one entry into a suspendable step: either the step
suspended with a checkpoint payload, or it ran to completion with an
output record. -/
inductive ApprovalOutcome
  | suspend (payload : SuspendPayload)
  | continueWith (out : ApprovalOutput)
deriving DecidableEq

/-- JavaScript a || b on an optional string: undefined and the empty
string are falsy, so both fall back to b. -/
def jsStringOr (a : Option String) (b : String) : String :=
  match a with
  | none => b
  | some s => if s = "" then b else s

/-- Embeds the execute function of the human-approval step. Modelled
from the spec for the engine half (section 4.5): awaiting suspend parks
the run with the checkpoint payload, so the first entry with no resume
data is a suspension outcome (the record the source returns after the
awaited suspend call is not consumed while the run is parked). With
resume data present the step completes, taking approved and feedback
verbatim and letting a truthy modifiedContent replace the content. -/
def approvalExecute (input : ReportOutput) (resumeData : Option ResumeData) : ApprovalOutcome :=
  match resumeData with
  | none =>
    ApprovalOutcome.suspend { reportTitle := input.reportTitle, reportContent := input.reportContent }
  | some rd =>
    ApprovalOutcome.continueWith
      { approved := rd.approved
        feedback := rd.feedback
        reportTitle := input.reportTitle
        reportContent := jsStringOr rd.modifiedContent input.reportContent
        publishChannels := input.publishChannels }

/-- Output record of the auto-approve step (no feedback field). -/
structure AutoApproveOutput where
  approved : Bool
  reportTitle : String
  reportContent : String
  publishChannels : Option (List Channel)
deriving DecidableEq

/-- Embeds the execute function of the auto-approve step. -/
def autoApproveExecute (input : ReportOutput) : AutoApproveOutput :=
  { approved := true
    reportTitle := input.reportTitle
    reportContent := input.reportContent
    publishChannels := input.publishChannels }

/-- Input record of the normalize-branch-output step: the branch's
output keyed by the id of whichever target step actually executed. -/
structure NormalizeInput where
  humanApproval : Option ApprovalOutput
  autoApprove : Option AutoApproveOutput
deriving DecidableEq

/-- Output record of the normalize-branch-output step. -/
structure NormOutput where
  approved : Bool
  reportTitle : String
  reportContent : String
  publishChannels : Option (List Channel)
deriving DecidableEq

/-- Embeds the execute function of the normalize-branch-output step:
branchResult is the JavaScript or of the two optional keys; with
neither present the step throws. -/
def normalizeBranchOutputExecute (input : NormalizeInput) : Except String NormOutput :=
  match input.humanApproval with
  | some h =>
    Except.ok { approved := h.approved, reportTitle := h.reportTitle
                reportContent := h.reportContent, publishChannels := h.publishChannels }
  | none =>
    match input.autoApprove with
    | some a =>
      Except.ok { approved := a.approved, reportTitle := a.reportTitle
                  reportContent := a.reportContent, publishChannels := a.publishChannels }
    | none => Except.error "No branch result found"

/-- The three publish operations the publish-report step may invoke. -/
inductive PublishOp
  | createGoogleDoc
  | postToSlack
  | sendEmail
deriving DecidableEq

/-- Output record of the publish-report step (also the payload of a
bail from it). The source always returns an urls array even though the
schema marks it optional, so it is a plain list here. -/
structure PublishOutput where
  published : Bool
  publishedChannels : List String
  urls : List String
  reportTitle : String
  message : String
deriving DecidableEq

/-- Environment for the publish loop: the url the Google Doc helper
returns, and per-operation faults (some msg models the call throwing,
which the loop's try/catch converts into skipping that channel). -/
structure PublishEnv where
  gdocUrl : String
  gdocFault : Option String
  slackFault : Option String
  emailFault : Option String
deriving DecidableEq

/-- Accumulator of the publish loop: the channels and urls pushed so
far, plus the trace of publish operations invoked. -/
structure PubAcc where
  publishedChannels : List String
  urls : List String
  ops : List PublishOp
deriving DecidableEq

/-- One iteration of the publish loop for one channel: the operation is
invoked; on success the channel (and for Google Drive the url) is
pushed; a thrown error is caught and nothing is pushed. -/
def publishOne (env : PublishEnv) (acc : PubAcc) (c : Channel) : PubAcc :=
  match c with
  | .googleDrive =>
    match env.gdocFault with
    | some _ => { acc with ops := acc.ops ++ [PublishOp.createGoogleDoc] }
    | none =>
      { publishedChannels := acc.publishedChannels ++ ["google-drive"]
        urls := acc.urls ++ [env.gdocUrl]
        ops := acc.ops ++ [PublishOp.createGoogleDoc] }
  | .slack =>
    match env.slackFault with
    | some _ => { acc with ops := acc.ops ++ [PublishOp.postToSlack] }
    | none =>
      { acc with publishedChannels := acc.publishedChannels ++ ["slack"]
                 ops := acc.ops ++ [PublishOp.postToSlack] }
  | .email =>
    match env.emailFault with
    | some _ => { acc with ops := acc.ops ++ [PublishOp.sendEmail] }
    | none =>
      { acc with publishedChannels := acc.publishedChannels ++ ["email"]
                 ops := acc.ops ++ [PublishOp.sendEmail] }

/-- Outcome of the publish-report step: the early bail when the report
was not approved, or completion with the publish summary. -/
inductive PublishOutcome
  | bail (out : PublishOutput)
  | continueWith (out : PublishOutput)
deriving DecidableEq

/-- Embeds the execute function of the publish-report step, returning
its outcome together with the list of publish operations it invoked. -/
def publishReportExecute (env : PublishEnv) (input : NormOutput) :
    PublishOutcome × List PublishOp :=
  if input.approved = false then
    (PublishOutcome.bail
      { published := false, publishedChannels := [], urls := []
        reportTitle := input.reportTitle
        message := "Report was not approved for publication" }, [])
  else
    let channels := input.publishChannels.getD [Channel.googleDrive]
    let acc := channels.foldl (publishOne env) { publishedChannels := [], urls := [], ops := [] }
    (PublishOutcome.continueWith
      { published := decide (0 < acc.publishedChannels.length)
        publishedChannels := acc.publishedChannels
        urls := acc.urls
        reportTitle := input.reportTitle
        message := if 0 < acc.publishedChannels.length then
            "Report published to " ++ String.intercalate ", " acc.publishedChannels
          else "Report was not published to any channels" }, acc.ops)

/-- Final workflow output produced by the map node after publish. -/
structure FinalOutput where
  success : Bool
  reportTitle : String
  publishedChannels : List String
  message : String
deriving DecidableEq

/-- Embeds the final map node of the workflow. -/
def mapFinal (p : PublishOutput) : FinalOutput :=
  { success := p.published
    reportTitle := p.reportTitle
    publishedChannels := p.publishedChannels
    message := p.message }

/-- The two targets of the approval branch. -/
inductive BranchTarget
  | humanApproval
  | autoApprove
deriving DecidableEq

/-- Modelled from the spec: branch evaluation (section 4.3) tests the
guards in declaration order; the first guard returning true selects its
target and the rest are not evaluated; no match is a routing error. -/
def firstMatch {α β : Type} : List ((α → Bool) × β) → α → Option β
  | [], _ => none
  | (g, t) :: rest, a => if g a then some t else firstMatch rest a

/-- The guard list of the workflow's approval branch, in declaration
order (requireApproval === true routes to human approval, and
requireApproval !== true routes to auto approval). -/
def documentResearchBranches : List ((ReportOutput → Bool) × BranchTarget) :=
  [(fun d => d.requireApproval == true, BranchTarget.humanApproval),
   (fun d => d.requireApproval != true, BranchTarget.autoApprove)]

/-- Environment of one document-research run: the injected search
faults, the model text and its parse result, the clock rendering used in
the report, and the publish environment. -/
structure Env where
  searchFaults : SearchFaults
  analysisText : String
  analysisParsed : Option Analysis
  nowString : String
  publish : PublishEnv
deriving DecidableEq

/-- Terminal or parked state a run reaches, as in the spec's Run status
set: Suspended is a parked, non-terminal state; Succeeded, Bailed and
Failed are terminal. -/
inductive RunResult
  | suspended (stepId : String) (payload : SuspendPayload)
  | succeeded (out : FinalOutput)
  | bailed (out : PublishOutput)
  | failed (err : String)
deriving DecidableEq

/-- Result of driving a run: the run state reached, the ids of the
nodes executed in order (the anonymous final map node is labelled
final-map), and the publish operations invoked. -/
structure RunOutput where
  result : RunResult
  executed : List String
  publishOps : List PublishOp
deriving DecidableEq

/-- Modelled from the spec: the driver tail after the branch (sections
4.2 and 4.3) — the merge step runs on the branch output keyed by the
executed target's id, then publish; a bail skips every remaining node
and its record is the terminal output; otherwise the map node produces
the final output. -/
def continueAfterBranch (env : Env) (soFar : List String) (n : NormalizeInput) : RunOutput :=
  match normalizeBranchOutputExecute n with
  | Except.error e =>
    { result := RunResult.failed e
      executed := soFar ++ ["normalize-branch-output"], publishOps := [] }
  | Except.ok norm =>
    match publishReportExecute env.publish norm with
    | (PublishOutcome.bail out, ops) =>
      { result := RunResult.bailed out
        executed := soFar ++ ["normalize-branch-output", "publish-report"]
        publishOps := ops }
    | (PublishOutcome.continueWith out, ops) =>
      { result := RunResult.succeeded (mapFinal out)
        executed := soFar ++ ["normalize-branch-output", "publish-report", "final-map"]
        publishOps := ops }

/-- Modelled from the spec: one fresh run of the document-research
workflow (driver loop of section 4.2 over the committed node sequence:
search, analyze, report, branch, normalize, publish, map), entering the
human-approval step with no resume data present. -/
def runDocumentResearch (env : Env) (input : SearchInput) : RunOutput :=
  let s1 := searchDocumentsExecute input env.searchFaults
  let s2 := analyzeResultsExecute s1 env.analysisText env.analysisParsed
  let s3 := createReportExecute s2 env.nowString
  let base := ["search-documents", "analyze-results", "create-report"]
  match firstMatch documentResearchBranches s3 with
  | none => { result := RunResult.failed "RoutingError", executed := base, publishOps := [] }
  | some BranchTarget.humanApproval =>
    match approvalExecute s3 none with
    | ApprovalOutcome.suspend p =>
      { result := RunResult.suspended "human-approval" p
        executed := base ++ ["human-approval"], publishOps := [] }
    | ApprovalOutcome.continueWith out =>
      continueAfterBranch env (base ++ ["human-approval"])
        { humanApproval := some out, autoApprove := none }
  | some BranchTarget.autoApprove =>
    continueAfterBranch env (base ++ ["auto-approve"])
      { humanApproval := none, autoApprove := some (autoApproveExecute s3) }

/-- The accumulated record just before the branch: the report produced
by the search, analyze, report chain. -/
def pipelineReport (env : Env) (input : SearchInput) : ReportOutput :=
  createReportExecute
    (analyzeResultsExecute (searchDocumentsExecute input env.searchFaults)
      env.analysisText env.analysisParsed)
    env.nowString

/-- Modelled from the spec: resuming a run suspended at the
human-approval step (section 4.5) — the step re-enters with the resume
data and the checkpointed accumulated snapshot (the approval step's
input record), skips the pre-suspension logic, and the driver continues
with the remaining nodes. -/
def resumeDocumentResearch (env : Env) (ckpt : ReportOutput) (rd : ResumeData) : RunOutput :=
  match approvalExecute ckpt (some rd) with
  | ApprovalOutcome.suspend p =>
    { result := RunResult.suspended "human-approval" p
      executed := ["human-approval"], publishOps := [] }
  | ApprovalOutcome.continueWith out =>
    continueAfterBranch env ["human-approval"]
      { humanApproval := some out, autoApprove := none }

end DocResearch

namespace Onboarding

/-- Platform flags of the project-onboarding input (each defaults to
true at schema parse, so plain booleans here). -/
structure Platforms where
  github : Bool
  slack : Bool
  googleDrive : Bool
deriving DecidableEq

/-- Priority enum of the project-onboarding input. -/
inductive Priority
  | low
  | medium
  | high
deriving DecidableEq

/-- Project-onboarding workflow input after schema parsing. -/
structure ProjectInput where
  projectName : String
  description : String
  teamMembers : List String
  techStack : List String
  deadline : Option String
  priority : Priority
  platforms : Platforms
deriving DecidableEq

/-- Output of the validate-project-data step: the input extended with
projectId, createdAt and slug (the cumulative schema step1OutputSchema). -/
structure Step1Output extends ProjectInput where
  projectId : String
  createdAt : String
  slug : String
deriving DecidableEq

/-- Output of the create-github-repo step (step2OutputSchema). -/
structure Step2Output extends Step1Output where
  repositoryUrl : String
  repositoryName : String
  githubSuccess : Bool
deriving DecidableEq

/-- Output of the create-google-drive-folder step (step3OutputSchema). -/
structure Step3Output extends Step2Output where
  driveFolderUrl : String
  driveFolderId : String
  driveSuccess : Bool
deriving DecidableEq

/-- Output of the create-slack-channel step (step4OutputSchema). -/
structure Step4Output extends Step3Output where
  channelName : String
  channelId : String
  slackSuccess : Bool
deriving DecidableEq

/-- Setup links of the final summary output. -/
structure SetupLinks where
  github : Option String
  googleDrive : Option String
  slack : Option String
deriving DecidableEq

/-- Final output of the generate-project-summary step. -/
structure FinalOutput where
  projectSummary : String
  welcomeMessage : String
  onboardingComplete : Bool
  setupLinks : SetupLinks
  projectId : String
deriving DecidableEq

/-- Environment of one onboarding run: whether the registered agent is
found, the clock and random renderings used for generated ids, per-step
faults (some msg models the agent call inside the try block throwing),
and the summary text the agent returns. -/
structure OnboardEnv where
  agentPresent : Bool
  nowMs : String
  randSuffix : String
  isoNow : String
  githubFault : Option String
  driveFault : Option String
  slackFault : Option String
  channelIdSuffix : String
  summaryText : String
deriving DecidableEq

/-- Lowercase ASCII letter or digit, the character class kept by the
slug regex. -/
def isLowerAlnum (c : Char) : Bool :=
  (decide (Char.ofNat 97 ≤ c) && decide (c ≤ Char.ofNat 122))
    || (decide (Char.ofNat 48 ≤ c) && decide (c ≤ Char.ofNat 57))

/-- Collapses consecutive dashes to a single dash, matching the +
quantifier of the slug regex after each non-alphanumeric character has
been mapped to a dash. -/
def collapseDashes : List Char → List Char
  | [] => []
  | [c] => [c]
  | a :: b :: rest =>
    if a = '-' && b = '-' then collapseDashes (b :: rest)
    else a :: collapseDashes (b :: rest)

/-- Embeds the slug computation: lowercase, replace each run of
characters outside a-z0-9 with a dash, then strip a leading and a
trailing dash. -/
def slugify (s : String) : String :=
  let dashed := collapseDashes
    ((s.toLower.toList).map (fun c => if isLowerAlnum c then c else '-'))
  let noLead := match dashed with
    | '-' :: rest => rest
    | l => l
  let noTrail := (match noLead.reverse with
    | '-' :: rest => rest
    | l => l).reverse
  String.mk noTrail

/-- Embeds the execute function of the validate-project-data step. -/
def validateProjectDataExecute (env : OnboardEnv) (input : ProjectInput) : Step1Output :=
  { toProjectInput := input
    projectId := "proj_" ++ env.nowMs ++ "_" ++ env.randSuffix
    createdAt := env.isoNow
    slug := slugify input.projectName }

/-- Embeds the execute function of the create-github-repo step: missing
agent throws (failing the step); a disabled platform or a caught agent
failure degrades to empty resource fields with githubSuccess false. -/
def createGitHubRepositoryExecute (env : OnboardEnv) (input : Step1Output) :
    Except String Step2Output :=
  if env.agentPresent = false then
    Except.error "Project Assistant agent not found"
  else if input.platforms.github = false then
    Except.ok { toStep1Output := input, repositoryUrl := "", repositoryName := ""
                githubSuccess := false }
  else
    match env.githubFault with
    | some _ =>
      Except.ok { toStep1Output := input, repositoryUrl := "", repositoryName := ""
                  githubSuccess := false }
    | none =>
      Except.ok { toStep1Output := input
                  repositoryUrl := "https://github.com/user/" ++ input.slug
                  repositoryName := input.slug
                  githubSuccess := true }

/-- Embeds the execute function of the create-google-drive-folder step. -/
def createGoogleDriveFolderExecute (env : OnboardEnv) (input : Step2Output) :
    Except String Step3Output :=
  if env.agentPresent = false then
    Except.error "Project Assistant agent not found"
  else if input.platforms.googleDrive = false then
    Except.ok { toStep2Output := input, driveFolderUrl := "", driveFolderId := ""
                driveSuccess := false }
  else
    match env.driveFault with
    | some _ =>
      Except.ok { toStep2Output := input, driveFolderUrl := "", driveFolderId := ""
                  driveSuccess := false }
    | none =>
      Except.ok { toStep2Output := input
                  driveFolderUrl := "https://drive.google.com/drive/folders/example_folder_id"
                  driveFolderId := "example_folder_id"
                  driveSuccess := true }

/-- Embeds the execute function of the create-slack-channel step. -/
def createSlackChannelExecute (env : OnboardEnv) (input : Step3Output) :
    Except String Step4Output :=
  if env.agentPresent = false then
    Except.error "Project Assistant agent not found"
  else if input.platforms.slack = false then
    Except.ok { toStep3Output := input, channelName := "", channelId := ""
                slackSuccess := false }
  else
    match env.slackFault with
    | some _ =>
      Except.ok { toStep3Output := input, channelName := "", channelId := ""
                  slackSuccess := false }
    | none =>
      Except.ok { toStep3Output := input
                  channelName := "proj-" ++ input.slug
                  channelId := "C" ++ env.channelIdSuffix
                  slackSuccess := true }

/-- The welcome message template of the generate-project-summary step
(the source file's emoji bytes are kept as they appear there). -/
def welcomeMessageOf (input : Step4Output) : String :=
  "üéâ Welcome to " ++ input.projectName ++ "!\n\n"
    ++ "Your project has been successfully set up with the following resources:\n\n"
    ++ "üìÇ **Project Resources:**\n"
    ++ (if input.githubSuccess then "‚Ä¢ GitHub Repository: " ++ input.repositoryUrl
        else "‚Ä¢ GitHub: Setup failed") ++ "\n"
    ++ (if input.driveSuccess then "‚Ä¢ Google Drive Folder: " ++ input.driveFolderUrl
        else "‚Ä¢ Google Drive: Setup failed") ++ "\n"
    ++ (if input.slackSuccess then "‚Ä¢ Slack Channel: #" ++ input.channelName
        else "‚Ä¢ Slack: Setup failed") ++ "\n\n"
    ++ "üë• **Team Members:** " ++ String.intercalate ", " input.teamMembers ++ "\n"
    ++ "üìÖ **Deadline:** " ++ input.deadline.getD "To be determined" ++ "\n"
    ++ "üè∑Ô∏è **Priority:** "
    ++ (match input.priority with
        | Priority.low => "LOW"
        | Priority.medium => "MEDIUM"
        | Priority.high => "HIGH") ++ "\n"
    ++ "üîß **Tech Stack:** "
    ++ (if input.techStack.isEmpty then "Not specified"
        else String.intercalate ", " input.techStack) ++ "\n\n"
    ++ "**Next Steps:**\n"
    ++ "1. Clone the repository and set up your development environment\n"
    ++ "2. Join the Slack channel for team communication\n"
    ++ "3. Access the Google Drive folder for shared documents\n"
    ++ "4. Review the project requirements and timeline\n\n"
    ++ "Let's build something amazing together! üöÄ"

/-- Embeds the execute function of the generate-project-summary step. -/
def generateProjectSummaryExecute (env : OnboardEnv) (input : Step4Output) :
    Except String FinalOutput :=
  if env.agentPresent = false then
    Except.error "Project Assistant agent not found"
  else
    Except.ok
      { projectSummary := env.summaryText
        welcomeMessage := welcomeMessageOf input
        onboardingComplete := true
        setupLinks :=
          { github := if input.githubSuccess then some input.repositoryUrl else none
            googleDrive := if input.driveSuccess then some input.driveFolderUrl else none
            slack := if input.slackSuccess then
                some ("slack://channel?team=YOUR_TEAM&id=" ++ input.channelId)
              else none }
        projectId := input.projectId }

/-- Modelled from the spec: the driver loop (section 4.2) over the
committed linear chain of the project-onboarding workflow; a step's
thrown error fails the run, a returned record feeds the next step. -/
def runProjectOnboarding (env : OnboardEnv) (input : ProjectInput) :
    Except String FinalOutput :=
  let s1 := validateProjectDataExecute env input
  (createGitHubRepositoryExecute env s1).bind fun s2 =>
    (createGoogleDriveFolderExecute env s2).bind fun s3 =>
      (createSlackChannelExecute env s3).bind fun s4 =>
        generateProjectSummaryExecute env s4

end Onboarding

namespace DocResearch

/-- The end-to-end input of the auto-approve scenario. -/
def autoInput : SearchInput :=
  { query := "X", platforms := some [Platform.github]
    requireApproval := false, publishChannels := none }

/-- A concrete run environment used to instantiate the theorems on
closed inputs: no injected faults, unparseable model output. -/
def sampleEnv : Env :=
  { searchFaults := { googleDrive := none, github := none, slack := none }
    analysisText := "analysis text"
    analysisParsed := none
    nowString := "1/1/2024, 12:00:00 AM"
    publish := { gdocUrl := "https://docs.google.com/document/d/example-1"
                 gdocFault := none, slackFault := none, emailFault := none } }

/-- A concrete workflow input requiring approval, all platforms. -/
def sampleInput : SearchInput :=
  { query := "quarterly report", platforms := none
    requireApproval := true, publishChannels := none }

/-- A concrete report record as checkpointed at the approval step. -/
def sampleReport : ReportOutput :=
  { reportTitle := "Research Report: quarterly report"
    reportContent := "report body", reportFormat := "markdown"
    requireApproval := true, publishChannels := none }

/-- Concrete resume data rejecting the report. -/
def rejectResume : ResumeData :=
  { approved := false, feedback := some "needs work", modifiedContent := none }

/-- A concrete settlement order distinct from declaration order. -/
def settleOrder : List Platform :=
  [Platform.slack, Platform.googleDrive, Platform.github]

end DocResearch

namespace Onboarding

/-- A concrete onboarding environment whose GitHub agent call throws. -/
def sampleOnboardEnv : OnboardEnv :=
  { agentPresent := true, nowMs := "1700000000000", randSuffix := "a1b2c3d4e"
    isoNow := "2024-01-01T00:00:00.000Z"
    githubFault := some "GitHub API unavailable"
    driveFault := none, slackFault := none
    channelIdSuffix := "AB12CD34EF", summaryText := "Project summary." }

/-- A concrete onboarding environment with no faults at all. -/
def okOnboardEnv : OnboardEnv :=
  { agentPresent := true, nowMs := "1700000000000", randSuffix := "a1b2c3d4e"
    isoNow := "2024-01-01T00:00:00.000Z"
    githubFault := none, driveFault := none, slackFault := none
    channelIdSuffix := "AB12CD34EF", summaryText := "Project summary." }

/-- A concrete project input with Google Drive disabled. -/
def sampleProject : ProjectInput :=
  { projectName := "My Cool Project"
    description := "A project used for concrete checks."
    teamMembers := ["a@example.com"], techStack := ["ts"]
    deadline := none, priority := Priority.medium
    platforms := { github := true, slack := true, googleDrive := false } }

/-- The validate step's output on the sample project under the faulting
environment. -/
def sampleStep1 : Step1Output :=
  validateProjectDataExecute sampleOnboardEnv sampleProject

/-- The validate step's output on the sample project under the
fault-free environment. -/
def okStep1 : Step1Output :=
  validateProjectDataExecute okOnboardEnv sampleProject

/-- The GitHub step's successful output on okStep1. -/
def okStep2 : Step2Output :=
  { toStep1Output := okStep1
    repositoryUrl := "https://github.com/user/" ++ okStep1.slug
    repositoryName := okStep1.slug
    githubSuccess := true }

end Onboarding

namespace DocResearch

/-- The search-documents output written as one explicit record: each
platform field holds its search result exactly when the platform is
selected, and totalResults is the sum of the three field lengths. -/
lemma searchDocumentsExecute_eq (input : SearchInput) (f : SearchFaults) :
    searchDocumentsExecute input f =
      { googleDriveResults :=
          if (input.platforms.getD defaultPlatforms).contains Platform.googleDrive then
            searchGoogleDrive input.query f.googleDrive else []
        githubResults :=
          if (input.platforms.getD defaultPlatforms).contains Platform.github then
            searchGitHub input.query f.github else []
        slackResults :=
          if (input.platforms.getD defaultPlatforms).contains Platform.slack then
            searchSlack input.query f.slack else []
        totalResults :=
          (if (input.platforms.getD defaultPlatforms).contains Platform.googleDrive then
            searchGoogleDrive input.query f.googleDrive else []).length
          + (if (input.platforms.getD defaultPlatforms).contains Platform.github then
              searchGitHub input.query f.github else []).length
          + (if (input.platforms.getD defaultPlatforms).contains Platform.slack then
              searchSlack input.query f.slack else []).length
        query := input.query
        requireApproval := input.requireApproval
        publishChannels := input.publishChannels } := by
  simp only [searchDocumentsExecute]
  split <;> split <;> split <;> rfl

/-- Claim C4: the aggregated output's totalResults equals the sum of
the lengths of the three per-platform result lists; a platform that is
not selected contributes the empty list; and a platform search whose
try block throws is caught and contributes the empty list, so the step
itself (a total function here) never fails. -/
theorem search_totalResults_is_sum (input : SearchInput) (f : SearchFaults) :
    ((searchDocumentsExecute input f).totalResults
        = (searchDocumentsExecute input f).googleDriveResults.length
          + (searchDocumentsExecute input f).githubResults.length
          + (searchDocumentsExecute input f).slackResults.length)
    ∧ ((searchDocumentsExecute input f).googleDriveResults
        = if (input.platforms.getD defaultPlatforms).contains Platform.googleDrive then
            searchGoogleDrive input.query f.googleDrive else [])
    ∧ ((searchDocumentsExecute input f).githubResults
        = if (input.platforms.getD defaultPlatforms).contains Platform.github then
            searchGitHub input.query f.github else [])
    ∧ ((searchDocumentsExecute input f).slackResults
        = if (input.platforms.getD defaultPlatforms).contains Platform.slack then
            searchSlack input.query f.slack else [])
    ∧ (∀ q e, searchGoogleDrive q (some e) = [] ∧ searchGitHub q (some e) = []
        ∧ searchSlack q (some e) = []) := by
  refine ⟨?_, ?_, ?_, ?_, ?_⟩
  · rw [searchDocumentsExecute_eq]
  · rw [searchDocumentsExecute_eq]
  · rw [searchDocumentsExecute_eq]
  · rw [searchDocumentsExecute_eq]
  · intro q e
    exact ⟨rfl, rfl, rfl⟩

/-- A settlement fold writes the Google Drive result field exactly when
a Google Drive settlement occurs in the order, and the value written is
the same whatever the position of that settlement. -/
lemma foldl_applySettle_googleDrive (q : String) (f : SearchFaults) (r : MutResults)
    (o : List Platform) :
    (o.foldl (applySettle q f) r).googleDriveResults
      = if o.contains Platform.googleDrive then searchGoogleDrive q f.googleDrive
        else r.googleDriveResults := by
  induction o generalizing r with
  | nil => simp
  | cons p rest ih =>
    cases p <;> simp [applySettle, ih, List.contains_cons]

/-- Settlement fold characterisation for the GitHub result field. -/
lemma foldl_applySettle_github (q : String) (f : SearchFaults) (r : MutResults)
    (o : List Platform) :
    (o.foldl (applySettle q f) r).githubResults
      = if o.contains Platform.github then searchGitHub q f.github
        else r.githubResults := by
  induction o generalizing r with
  | nil => simp
  | cons p rest ih =>
    cases p <;> simp [applySettle, ih, List.contains_cons]

/-- Settlement fold characterisation for the Slack result field. -/
lemma foldl_applySettle_slack (q : String) (f : SearchFaults) (r : MutResults)
    (o : List Platform) :
    (o.foldl (applySettle q f) r).slackResults
      = if o.contains Platform.slack then searchSlack q f.slack
        else r.slackResults := by
  induction o generalizing r with
  | nil => simp
  | cons p rest ih =>
    cases p <;> simp [applySettle, ih, List.contains_cons]

/-- Permuted lists of platforms contain the same platforms. -/
lemma perm_contains_eq {l₁ l₂ : List Platform} (h : l₁.Perm l₂) (p : Platform) :
    l₁.contains p = l₂.contains p := by
  rw [Bool.eq_iff_iff]
  constructor
  · intro hc
    exact List.elem_iff.mpr (h.mem_iff.mp (List.elem_iff.mp hc))
  · intro hc
    exact List.elem_iff.mpr (h.mem_iff.mpr (List.elem_iff.mp hc))

/-- The launched sub-search list contains a platform exactly when the
(defaulted) platforms input selects it. -/
lemma launchedSearches_contains (input : SearchInput) (p : Platform) :
    (launchedSearches input).contains p
      = (input.platforms.getD defaultPlatforms).contains p := by
  rw [Bool.eq_iff_iff]
  constructor
  · intro hc
    have hm := List.elem_iff.mp hc
    exact List.elem_iff.mpr (List.elem_iff.mp (List.mem_filter.mp hm).2)
  · intro hc
    refine List.elem_iff.mpr (List.mem_filter.mpr ⟨?_, hc⟩)
    cases p <;> simp [defaultPlatforms]

/-- Claim C5: the fan-out join is deterministic in settlement order —
for every settlement order of the launched sub-searches (any
permutation of the launched list), folding all settlements before
producing the output yields exactly the record the step's execute
produces, so the aggregated output's layout and values do not depend on
the order in which the concurrent sub-searches settle. -/
theorem search_settle_order_irrelevant (input : SearchInput) (f : SearchFaults)
    (order : List Platform) (h : order.Perm (launchedSearches input)) :
    searchDocumentsSettle input f order = searchDocumentsExecute input f := by
  have hgd := (perm_contains_eq h Platform.googleDrive).trans
    (launchedSearches_contains input Platform.googleDrive)
  have hgh := (perm_contains_eq h Platform.github).trans
    (launchedSearches_contains input Platform.github)
  have hsl := (perm_contains_eq h Platform.slack).trans
    (launchedSearches_contains input Platform.slack)
  rw [searchDocumentsExecute_eq]
  simp only [searchDocumentsSettle, foldl_applySettle_googleDrive,
    foldl_applySettle_github, foldl_applySettle_slack, hgd, hgh, hsl]

/-- Claim C3: branch evaluation over the workflow's two guards is total
and first-match-wins — every report record selects exactly the
human-approval target when requireApproval is true and the auto-approve
target otherwise, and (being a function of the record) the same record
always selects the same target, so the no-match routing error cannot
occur for this guard list. -/
theorem branch_routing_first_match_total (d : ReportOutput) :
    firstMatch documentResearchBranches d =
      some (if d.requireApproval then BranchTarget.humanApproval
            else BranchTarget.autoApprove) := by
  cases hd : d.requireApproval <;> simp [firstMatch, documentResearchBranches, hd]

/-- Claim C9: the analyze-results step is total; on JSON parse failure
it returns exactly the fallback record with the raw model text as
summary, and in both the parsed and the fallback case it preserves the
query, requireApproval and publishChannels fields of its input. -/
theorem analyze_fallback_and_preserves (input : SearchOutput) (text : String) :
    (analyzeResultsExecute input text none =
      { summary := text, keyFindings := ["Analysis completed"]
        recommendations := ["Review the findings"], relevanceScore := 75
        query := input.query, requireApproval := input.requireApproval
        publishChannels := input.publishChannels })
    ∧ (∀ parsed : Option Analysis,
        (analyzeResultsExecute input text parsed).query = input.query
        ∧ (analyzeResultsExecute input text parsed).requireApproval = input.requireApproval
        ∧ (analyzeResultsExecute input text parsed).publishChannels = input.publishChannels) := by
  refine ⟨rfl, ?_⟩
  intro parsed
  cases parsed <;> exact ⟨rfl, rfl, rfl⟩

/-- The requireApproval flag is threaded unchanged through the search,
analyze, report chain into the record the branch inspects. -/
lemma pipelineReport_requireApproval (env : Env) (input : SearchInput) :
    (pipelineReport env input).requireApproval = input.requireApproval := by
  simp only [pipelineReport, createReportExecute]
  cases env.analysisParsed <;>
    simp [analyzeResultsExecute, searchDocumentsExecute_eq]

/-- Claim C1: a fresh run whose input has requireApproval true routes
to the human-approval step, which, entered with no resume data, parks
the run Suspended (a non-terminal constructor, distinct from succeeded,
bailed and failed) with a checkpoint payload that is exactly the report
title and report content produced by the preceding create-report step. -/
theorem run_requireApproval_suspends (env : Env) (input : SearchInput)
    (h : input.requireApproval = true) :
    (runDocumentResearch env input).result
      = RunResult.suspended "human-approval"
          { reportTitle := (pipelineReport env input).reportTitle
            reportContent := (pipelineReport env input).reportContent } := by
  have hra : (pipelineReport env input).requireApproval = true :=
    (pipelineReport_requireApproval env input).trans h
  simp only [runDocumentResearch]
  rw [show createReportExecute
        (analyzeResultsExecute (searchDocumentsExecute input env.searchFaults)
          env.analysisText env.analysisParsed) env.nowString
      = pipelineReport env input from rfl]
  simp [firstMatch, documentResearchBranches, hra, approvalExecute]

/-- Claim C2: resuming a run suspended at the human-approval step with
approved false makes the publish-report step bail — the run ends Bailed
(so the final map node is skipped, as the executed node list also
shows) with published false, empty publishedChannels, and no publish
operation invoked. -/
theorem resume_rejected_bails (env : Env) (ckpt : ReportOutput) (rd : ResumeData)
    (h : rd.approved = false) :
    resumeDocumentResearch env ckpt rd =
      { result := RunResult.bailed
          { published := false, publishedChannels := [], urls := []
            reportTitle := ckpt.reportTitle
            message := "Report was not approved for publication" }
        executed := ["human-approval", "normalize-branch-output", "publish-report"]
        publishOps := [] } := by
  simp [resumeDocumentResearch, approvalExecute, continueAfterBranch,
    normalizeBranchOutputExecute, publishReportExecute, h]

/-- Claim C8: with input query X, platforms github only and
requireApproval false, and the Google Doc publish operation succeeding,
the run takes the auto-approve branch (never entering human-approval),
publishes to the defaulted google-drive channel, and succeeds with
success true and publishedChannels holding that one channel. -/
theorem run_auto_approve_end_to_end (env : Env) (h : env.publish.gdocFault = none) :
    (runDocumentResearch env autoInput).result
        = RunResult.succeeded
            { success := true, reportTitle := "Research Report: X"
              publishedChannels := ["google-drive"]
              message := "Report published to google-drive" }
      ∧ (runDocumentResearch env autoInput).executed
        = ["search-documents", "analyze-results", "create-report", "auto-approve",
           "normalize-branch-output", "publish-report", "final-map"] := by
  cases hp : env.analysisParsed <;>
    simp [runDocumentResearch, autoInput, searchDocumentsExecute_eq,
      analyzeResultsExecute, createReportExecute, firstMatch, documentResearchBranches,
      autoApproveExecute, continueAfterBranch, normalizeBranchOutputExecute,
      publishReportExecute, publishOne, mapFinal, h, hp, String.intercalate] <;>
    rfl

/-- Claim C10: resuming the human-approval step takes approved and
feedback verbatim from the resume data, and the output's reportContent
is the resume data's modifiedContent exactly when that field is present
and non-empty, falling back to the original content when it is absent
or the empty string. -/
theorem approval_resume_rewrites_content (input : ReportOutput) (rd : ResumeData) :
    approvalExecute input (some rd) = ApprovalOutcome.continueWith
      { approved := rd.approved
        feedback := rd.feedback
        reportTitle := input.reportTitle
        reportContent :=
          match rd.modifiedContent with
          | some s => if s = "" then input.reportContent else s
          | none => input.reportContent
        publishChannels := input.publishChannels } := by
  cases rd with
  | mk approved feedback modifiedContent =>
    cases modifiedContent <;> rfl

/-- Concrete instance of claim C1 at the sample environment and input. -/
theorem run_requireApproval_suspends_witness :
    sampleInput.requireApproval = true
    ∧ (runDocumentResearch sampleEnv sampleInput).result
      = RunResult.suspended "human-approval"
          { reportTitle := (pipelineReport sampleEnv sampleInput).reportTitle
            reportContent := (pipelineReport sampleEnv sampleInput).reportContent } :=
  ⟨rfl, run_requireApproval_suspends sampleEnv sampleInput rfl⟩

/-- Concrete instance of claim C2 at the sample checkpoint and a
rejecting resume. -/
theorem resume_rejected_bails_witness :
    rejectResume.approved = false
    ∧ resumeDocumentResearch sampleEnv sampleReport rejectResume =
      { result := RunResult.bailed
          { published := false, publishedChannels := [], urls := []
            reportTitle := sampleReport.reportTitle
            message := "Report was not approved for publication" }
        executed := ["human-approval", "normalize-branch-output", "publish-report"]
        publishOps := [] } :=
  ⟨rfl, resume_rejected_bails sampleEnv sampleReport rejectResume rfl⟩

/-- Concrete instance of claim C5: a settlement order different from
the declaration order yields the step's output. -/
theorem search_settle_order_irrelevant_witness :
    settleOrder.Perm (launchedSearches sampleInput)
    ∧ searchDocumentsSettle sampleInput sampleEnv.searchFaults settleOrder
      = searchDocumentsExecute sampleInput sampleEnv.searchFaults :=
  ⟨by decide,
   search_settle_order_irrelevant sampleInput sampleEnv.searchFaults settleOrder (by decide)⟩

/-- Concrete instance of claim C8 at the sample environment. -/
theorem run_auto_approve_end_to_end_witness :
    sampleEnv.publish.gdocFault = none
    ∧ ((runDocumentResearch sampleEnv autoInput).result
        = RunResult.succeeded
            { success := true, reportTitle := "Research Report: X"
              publishedChannels := ["google-drive"]
              message := "Report published to google-drive" }
      ∧ (runDocumentResearch sampleEnv autoInput).executed
        = ["search-documents", "analyze-results", "create-report", "auto-approve",
           "normalize-branch-output", "publish-report", "final-map"]) :=
  ⟨rfl, run_auto_approve_end_to_end sampleEnv rfl⟩

end DocResearch

namespace Onboarding

/-- With the agent registered, the create-github-repo step always
returns a record rather than throwing. -/
lemma createGitHubRepository_isOk (env : OnboardEnv) (hagent : env.agentPresent = true)
    (s1 : Step1Output) :
    ∃ s2, createGitHubRepositoryExecute env s1 = Except.ok s2 := by
  unfold createGitHubRepositoryExecute
  rw [if_neg (by simp [hagent])]
  by_cases hg : s1.platforms.github = false
  · rw [if_pos hg]
    exact ⟨_, rfl⟩
  · rw [if_neg hg]
    cases hf : env.githubFault
    · exact ⟨_, rfl⟩
    · exact ⟨_, rfl⟩

/-- With the agent registered, the create-google-drive-folder step
always returns a record rather than throwing. -/
lemma createGoogleDriveFolder_isOk (env : OnboardEnv) (hagent : env.agentPresent = true)
    (s2 : Step2Output) :
    ∃ s3, createGoogleDriveFolderExecute env s2 = Except.ok s3 := by
  unfold createGoogleDriveFolderExecute
  rw [if_neg (by simp [hagent])]
  by_cases hg : s2.platforms.googleDrive = false
  · rw [if_pos hg]
    exact ⟨_, rfl⟩
  · rw [if_neg hg]
    cases hf : env.driveFault
    · exact ⟨_, rfl⟩
    · exact ⟨_, rfl⟩

/-- With the agent registered, the create-slack-channel step always
returns a record rather than throwing. -/
lemma createSlackChannel_isOk (env : OnboardEnv) (hagent : env.agentPresent = true)
    (s3 : Step3Output) :
    ∃ s4, createSlackChannelExecute env s3 = Except.ok s4 := by
  unfold createSlackChannelExecute
  rw [if_neg (by simp [hagent])]
  by_cases hg : s3.platforms.slack = false
  · rw [if_pos hg]
    exact ⟨_, rfl⟩
  · rw [if_neg hg]
    cases hf : env.slackFault
    · exact ⟨_, rfl⟩
    · exact ⟨_, rfl⟩

/-- Claim C6: with the agent registered, a platform-integration step
whose platform is disabled or whose agent call throws does not fail —
it returns its input record extended with empty resource-handle fields
and the corresponding success flag false — and whatever the platform
flags and injected faults, the whole run still succeeds with a final
summary output. -/
theorem onboarding_platform_failures_degrade (env : OnboardEnv)
    (hagent : env.agentPresent = true) :
    (∀ s1 : Step1Output, s1.platforms.github = false ∨ env.githubFault.isSome →
      createGitHubRepositoryExecute env s1
        = Except.ok { toStep1Output := s1, repositoryUrl := "", repositoryName := ""
                      githubSuccess := false })
    ∧ (∀ s2 : Step2Output, s2.platforms.googleDrive = false ∨ env.driveFault.isSome →
        createGoogleDriveFolderExecute env s2
          = Except.ok { toStep2Output := s2, driveFolderUrl := "", driveFolderId := ""
                        driveSuccess := false })
    ∧ (∀ s3 : Step3Output, s3.platforms.slack = false ∨ env.slackFault.isSome →
        createSlackChannelExecute env s3
          = Except.ok { toStep3Output := s3, channelName := "", channelId := ""
                        slackSuccess := false })
    ∧ (∀ input : ProjectInput, ∃ out, runProjectOnboarding env input = Except.ok out) := by
  refine ⟨?_, ?_, ?_, ?_⟩
  · intro s1 h
    rcases h with h | h
    · simp [createGitHubRepositoryExecute, hagent, h]
    · obtain ⟨e, he⟩ := Option.isSome_iff_exists.mp h
      by_cases hg : s1.platforms.github = false <;>
        simp [createGitHubRepositoryExecute, hagent, hg, he]
  · intro s2 h
    rcases h with h | h
    · simp [createGoogleDriveFolderExecute, hagent, h]
    · obtain ⟨e, he⟩ := Option.isSome_iff_exists.mp h
      by_cases hg : s2.platforms.googleDrive = false <;>
        simp [createGoogleDriveFolderExecute, hagent, hg, he]
  · intro s3 h
    rcases h with h | h
    · simp [createSlackChannelExecute, hagent, h]
    · obtain ⟨e, he⟩ := Option.isSome_iff_exists.mp h
      by_cases hg : s3.platforms.slack = false <;>
        simp [createSlackChannelExecute, hagent, hg, he]
  · intro input
    obtain ⟨s2, h2⟩ := createGitHubRepository_isOk env hagent
      (validateProjectDataExecute env input)
    obtain ⟨s3, h3⟩ := createGoogleDriveFolder_isOk env hagent s2
    obtain ⟨s4, h4⟩ := createSlackChannel_isOk env hagent s3
    have h5 : ∃ out, generateProjectSummaryExecute env s4 = Except.ok out := by
      unfold generateProjectSummaryExecute
      rw [if_neg (by simp [hagent])]
      exact ⟨_, rfl⟩
    obtain ⟨s5, h5⟩ := h5
    exact ⟨s5, by simp [runProjectOnboarding, h2, h3, h4, h5, Except.bind]⟩

/-- Claim C7: cumulative record threading — every step before the
final summary step returns its input record unchanged inside its
output: the validate step's output restricts to its input, and each
platform step's output (whenever the step returns one) restricts to its
input record, extended only with that step's newly declared fields. -/
theorem onboarding_steps_preserve_input (env : OnboardEnv) :
    (∀ input : ProjectInput,
      (validateProjectDataExecute env input).toProjectInput = input)
    ∧ (∀ s1 out, createGitHubRepositoryExecute env s1 = Except.ok out →
        out.toStep1Output = s1)
    ∧ (∀ s2 out, createGoogleDriveFolderExecute env s2 = Except.ok out →
        out.toStep2Output = s2)
    ∧ (∀ s3 out, createSlackChannelExecute env s3 = Except.ok out →
        out.toStep3Output = s3) := by
  refine ⟨fun input => rfl, ?_, ?_, ?_⟩
  · intro s1 out h
    by_cases ha : env.agentPresent = false
    · simp [createGitHubRepositoryExecute, ha] at h
    · by_cases hg : s1.platforms.github = false
      · simp [createGitHubRepositoryExecute, ha, hg] at h
        rw [← h]
      · cases hf : env.githubFault <;>
          · simp [createGitHubRepositoryExecute, ha, hg, hf] at h
            rw [← h]
  · intro s2 out h
    by_cases ha : env.agentPresent = false
    · simp [createGoogleDriveFolderExecute, ha] at h
    · by_cases hg : s2.platforms.googleDrive = false
      · simp [createGoogleDriveFolderExecute, ha, hg] at h
        rw [← h]
      · cases hf : env.driveFault <;>
          · simp [createGoogleDriveFolderExecute, ha, hg, hf] at h
            rw [← h]
  · intro s3 out h
    by_cases ha : env.agentPresent = false
    · simp [createSlackChannelExecute, ha] at h
    · by_cases hg : s3.platforms.slack = false
      · simp [createSlackChannelExecute, ha, hg] at h
        rw [← h]
      · cases hf : env.slackFault <;>
          · simp [createSlackChannelExecute, ha, hg, hf] at h
            rw [← h]

/-- Concrete instance of claim C6: under the sample environment the
GitHub agent call throws, the step degrades to githubSuccess false, and
the whole run (with Google Drive additionally disabled in the input)
still produces a final summary. -/
theorem onboarding_platform_failures_degrade_witness :
    sampleOnboardEnv.agentPresent = true
    ∧ createGitHubRepositoryExecute sampleOnboardEnv sampleStep1
      = Except.ok { toStep1Output := sampleStep1, repositoryUrl := ""
                    repositoryName := "", githubSuccess := false }
    ∧ ∃ out, runProjectOnboarding sampleOnboardEnv sampleProject = Except.ok out :=
  ⟨rfl,
   (onboarding_platform_failures_degrade sampleOnboardEnv rfl).1 sampleStep1 (Or.inr rfl),
   (onboarding_platform_failures_degrade sampleOnboardEnv rfl).2.2.2 sampleProject⟩

/-- Concrete instance of claim C7: the validate and GitHub steps on
the sample project return outputs that restrict to their inputs. -/
theorem onboarding_steps_preserve_input_witness :
    (validateProjectDataExecute okOnboardEnv sampleProject).toProjectInput = sampleProject
    ∧ createGitHubRepositoryExecute okOnboardEnv okStep1 = Except.ok okStep2
    ∧ okStep2.toStep1Output = okStep1 :=
  ⟨(onboarding_steps_preserve_input okOnboardEnv).1 sampleProject,
   rfl,
   (onboarding_steps_preserve_input okOnboardEnv).2.1 okStep1 okStep2 rfl⟩

end Onboarding
